import Mathlib

/-! Shallow embedding of the habitat-sim Simulator orchestration layer:
configuration equality, the reconfigure state transition, the
object-addressing operations, sensor render-target binding, and depth
unprojection.  Machine floats are modelled as exact rationals; external
collaborators (filesystem probe, asset classifier, resource loader) are
modelled as an explicit environment, and calls into them are recorded as
events so that "this collaborator was (not) invoked" is a provable fact. -/

abbrev Vec3 : Type := ℚ × ℚ × ℚ

abbrev Quat : Type := ℚ × ℚ × ℚ × ℚ

/-- Column-major 4x4 matrix: `m c r` is column `c`, row `r`, matching the
`P[col][row]` indexing of the source. -/
abbrev Mat4 : Type := Fin 4 → Fin 4 → ℚ

def Mat4.fromDiagonal (v : Fin 4 → ℚ) : Mat4 := fun c r => if c = r then v c else 0

/-- Sentinel returned by getTransformation: `Magnum::Matrix4::fromDiagonal(Vector4(1))`. -/
def identityMat4 : Mat4 := Mat4.fromDiagonal (fun _ => 1)

/-- Sentinel returned by getTranslation: default `Magnum::Vector3()`, the zero vector. -/
def zeroVec3 : Vec3 := (0, 0, 0)

/-- Sentinel returned by getRotation: default `Magnum::Quaternion()`, the identity
rotation (zero vector part, unit scalar part). -/
def identityQuat : Quat := (0, 0, 0, 1)

/-- Sentinel `ID_UNDEFINED` used by `Simulator::addObject`. -/
def ID_UNDEFINED : Int := -1

/-- Asset classification tags used by `Simulator::reconfigure` (the full enum
has further members; only these are consulted by the code under study). -/
inductive AssetType where
  | UNKNOWN
  | MP3D_MESH
  | INSTANCE_MESH
  | FRL_INSTANCE_MESH
  | SUNCG_SCENE
deriving DecidableEq

/-- The embedded-semantics test of reconfigure lines 136-138: instance meshes
and suncg houses contain their own semantic annotations. -/
def isEmbeddedType (t : AssetType) : Bool :=
  decide (t = AssetType.FRL_INSTANCE_MESH) || decide (t = AssetType.SUNCG_SCENE) ||
  decide (t = AssetType.INSTANCE_MESH)

/-- Modelled from the spec: helper for `io::removeExtension` (the io utility
implementation is not among the sources).  Returns the characters before the
last dot, or `none` when the list has no dot. -/
def removeExtensionAux : List Char → Option (List Char)
  | [] => none
  | c :: cs =>
    match removeExtensionAux cs with
    | some cs2 => some (c :: cs2)
    | none => if c = '.' then some [] else none

/-- Modelled from the spec: `io::removeExtension` strips the final extension
(everything from the last dot) from a path; a path without a dot is returned
unchanged. -/
def removeExtension (p : String) : String :=
  match removeExtensionAux p.data with
  | some cs => String.mk cs
  | none => p

/-- Modelled from the spec: `io::changeExtension` replaces the path's
extension with the given one (the file-extension substitution rule of
section 4.2 of the specification). -/
def changeExtension (p : String) (ext : String) : String :=
  removeExtension p ++ ext

/-- `std::map<std::string, std::string>` lookup used for `scene.filepaths`. -/
def lookupFilepath (filepaths : List (String × String)) (key : String) : Option String :=
  (filepaths.find? (fun kv => kv.1 == key)).map (fun kv => kv.2)

/-- Scene asset locator (`SceneConfiguration`): id plus optional explicit
per-role file paths.  Its own equality is not among the sources; modelled
from the spec as structural. -/
structure SceneConfiguration where
  dataset : String
  id : String
  filepaths : List (String × String)
  sceneUpDir : Vec3
  sceneFrontDir : Vec3
  sceneScaleUnit : ℚ
deriving DecidableEq

structure SimulatorConfiguration where
  scene : SceneConfiguration
  defaultAgentId : Int
  defaultCameraUuid : String
  gpuDeviceId : Int
  width : Int
  height : Int
  compressTextures : Bool
  createRenderer : Bool
  enablePhysics : Bool
  physicsConfigFile : String
deriving DecidableEq

/-- `operator==(const SimulatorConfiguration&, const SimulatorConfiguration&)`,
lines 193-201 of the Simulator source: compares scene, defaultAgentId,
defaultCameraUuid, compressTextures, createRenderer, enablePhysics and
physicsConfigFile (via string compare). -/
def simConfigEq (a b : SimulatorConfiguration) : Bool :=
  decide (a.scene = b.scene) && decide (a.defaultAgentId = b.defaultAgentId) &&
  decide (a.defaultCameraUuid = b.defaultCameraUuid) &&
  decide (a.compressTextures = b.compressTextures) &&
  decide (a.createRenderer = b.createRenderer) &&
  decide (a.enablePhysics = b.enablePhysics) &&
  decide (a.physicsConfigFile = b.physicsConfigFile)

/-- `sceneFilename` of reconfigure: the "mesh" filepath override, else the scene id. -/
def sceneFilenameOf (cfg : SimulatorConfiguration) : String :=
  match lookupFilepath cfg.scene.filepaths "mesh" with
  | some p => p
  | none => cfg.scene.id

/-- `houseFilename` of reconfigure: the "house" filepath override, else the
scene filename with its extension changed to ".house". -/
def houseFilenameOf (cfg : SimulatorConfiguration) : String :=
  match lookupFilepath cfg.scene.filepaths "house" with
  | some p => p
  | none => changeExtension (sceneFilenameOf cfg) ".house"

/-- `semanticMeshFilename` of reconfigure: house filename with the extension
stripped, suffixed by "_semantic.ply". -/
def semanticMeshFilenameOf (cfg : SimulatorConfiguration) : String :=
  removeExtension (houseFilenameOf cfg) ++ "_semantic.ply"

/-- External collaborators of one reconfigure call. -/
structure Env where
  /-- `io::exists`: the filesystem probe collaborator. -/
  fileExists : String → Bool
  /-- Modelled from the spec: `assets::AssetInfo::fromPath` classification, a
  static decision table keyed by the path; its table is not among the
  sources, so it is abstracted as an environment function. -/
  assetTypeOf : String → AssetType
  /-- Result the resource-loading collaborator reports for the primary scene
  load of this reconfigure call. -/
  primaryLoadOk : Bool
  /-- Result the resource-loading collaborator reports for the companion
  semantic-mesh load; the source ignores this value. -/
  semanticLoadOk : Bool

/-- Simulator member state relevant to the claims.  `nextGraphId` models the
SceneManager's monotonically increasing fresh graph ids (modelled from the
spec; the SceneManager implementation is not among the sources). -/
structure SimState where
  config : SimulatorConfiguration
  activeSceneID : Int
  activeSemanticSceneID : Int
  sceneID : List Int
  nextGraphId : Int
  physicsBound : Bool
  hasContext : Bool
  hasRenderer : Bool
  compressTexturesFlag : Bool
  semanticSceneGen : Nat
deriving DecidableEq

/-- Calls into external collaborators made during reconfigure. -/
inductive Event where
  | allocGraph (graphId : Int)
  | loadScene (path : String) (withPhysics : Bool)
  | loadSemanticMesh (path : String)
  | loadMp3dHouse (path : String)
  | loadSuncgHouse (path : String)
  | resetCalled
deriving DecidableEq

structure ReconfigureResult where
  state : SimState
  events : List Event
  error : Option String
deriving DecidableEq

/-- The short-circuit branch: `reset()` (which only resets the physics clock,
touching none of the modelled members) and return. -/
def applyReset (s : SimState) : ReconfigureResult :=
  ⟨s, [Event.resetCalled], none⟩

/-- Reconfigure lines 113-133: if the house file exists and the derived
semantic mesh exists, allocate a second scene graph, record it as the active
semantic scene graph id, and load the semantic mesh into it (result ignored). -/
def semanticMeshStep (cfg : SimulatorConfiguration) (env : Env) (s : SimState) :
    SimState × List Event :=
  if env.fileExists (houseFilenameOf cfg) then
    if env.fileExists (semanticMeshFilenameOf cfg) then
      ({ s with nextGraphId := s.nextGraphId + 1,
                activeSemanticSceneID := s.nextGraphId,
                sceneID := s.sceneID ++ [s.nextGraphId] },
       [Event.allocGraph s.nextGraphId,
        Event.loadSemanticMesh (semanticMeshFilenameOf cfg)])
    else (s, [])
  else (s, [])

/-- Reconfigure lines 143-152: replace the SemanticScene with a fresh one,
populate it with the Mp3d house loader when the house file exists, and with
the Suncg house loader when the asset classifies as a SUNCG scene. -/
def houseAnnotationStep (cfg : SimulatorConfiguration) (env : Env) (s : SimState) :
    SimState × List Event :=
  ({ s with semanticSceneGen := s.semanticSceneGen + 1 },
   (if env.fileExists (houseFilenameOf cfg) then
      [Event.loadMp3dHouse (houseFilenameOf cfg)] else []) ++
   (if env.assetTypeOf (sceneFilenameOf cfg) = AssetType.SUNCG_SCENE then
      [Event.loadSuncgHouse (sceneFilenameOf cfg)] else []))

/-- Reconfigure lines 83-155, after the primary graph allocation: the
renderer branch (context create-once, renderer rebuild, primary load with
fail-fast, semantic-mesh companion load, embedded-semantics override),
followed by the unconditional semantic-annotation rebuild and `reset()`. -/
def rendererAndLoadStep (cfg : SimulatorConfiguration) (env : Env) (s : SimState) :
    ReconfigureResult :=
  if cfg.createRenderer then
    let s4 := { s with hasContext := true, hasRenderer := true,
                       compressTexturesFlag := cfg.compressTextures }
    if env.primaryLoadOk then
      let s5 := { s4 with physicsBound := cfg.enablePhysics || s4.physicsBound }
      let p := semanticMeshStep cfg env s5
      let s7 := if isEmbeddedType (env.assetTypeOf (sceneFilenameOf cfg)) then
                  { p.1 with activeSemanticSceneID := p.1.activeSceneID }
                else p.1
      let q := houseAnnotationStep cfg env s7
      ⟨q.1,
       Event.loadScene (sceneFilenameOf cfg) cfg.enablePhysics ::
         (p.2 ++ q.2 ++ [Event.resetCalled]),
       none⟩
    else
      ⟨s4, [Event.loadScene (sceneFilenameOf cfg) cfg.enablePhysics],
       some ("Cannot load: " ++ sceneFilenameOf cfg)⟩
  else
    let q := houseAnnotationStep cfg env s
    ⟨q.1, q.2 ++ [Event.resetCalled], none⟩

/-- The non-short-circuit path of reconfigure: adopt the configuration,
allocate a fresh primary scene graph, append its id to the list of ever
allocated graphs, then run the renderer/load/semantic steps. -/
def fullReconfigure (cfg : SimulatorConfiguration) (env : Env) (s : SimState) :
    ReconfigureResult :=
  let s1 := { s with config := cfg }
  let s3 := { s1 with nextGraphId := s1.nextGraphId + 1,
                      activeSceneID := s1.nextGraphId,
                      sceneID := s1.sceneID ++ [s1.nextGraphId] }
  let r := rendererAndLoadStep cfg env s3
  { r with events := Event.allocGraph s1.nextGraphId :: r.events }

/-- `Simulator::reconfigure`: short-circuit to `reset()` when the incoming
configuration compares equal to the stored one, else run the full path. -/
def reconfigure (cfg : SimulatorConfiguration) (env : Env) (s : SimState) :
    ReconfigureResult :=
  if simConfigEq cfg s.config then applyReset s else fullReconfigure cfg env s

/-- Calls forwarded to the physics-world collaborator by the object
addressing operations. -/
inductive PhysCall where
  | addObject (objectLibIndex : Int)
  | removeObject (objectId : Int)
  | applyTorque (objectId : Int) (tau : Vec3)
  | applyForce (objectId : Int) (force : Vec3) (relPos : Vec3)
  | setTransformation (objectId : Int) (transform : Mat4)
  | setTranslation (objectId : Int) (translation : Vec3)
  | setRotation (objectId : Int) (rotation : Quat)
  | getTransformation (objectId : Int)
  | getTranslation (objectId : Int)
  | getRotation (objectId : Int)

/-- The guard shared verbatim by every object-addressing operation:
`physicsManager_ != nullptr && sceneID >= 0 && sceneID < sceneID_.size()`. -/
def objectOpValid (s : SimState) (sceneId : Int) : Bool :=
  s.physicsBound && decide (0 ≤ sceneId) && decide (sceneId < (s.sceneID.length : Int))

/-- `Simulator::addObject`; `physNewId` stands for the object id the physics
world would hand back when the call is forwarded. -/
def addObject (s : SimState) (objectLibIndex : Int) (sceneId : Int) (physNewId : Int) :
    Int × List PhysCall :=
  if objectOpValid s sceneId then (physNewId, [PhysCall.addObject objectLibIndex])
  else (ID_UNDEFINED, [])

/-- `Simulator::removeObject`. -/
def removeObject (s : SimState) (objectId : Int) (sceneId : Int) : List PhysCall :=
  if objectOpValid s sceneId then [PhysCall.removeObject objectId] else []

/-- `Simulator::applyTorque`. -/
def applyTorque (s : SimState) (tau : Vec3) (objectId : Int) (sceneId : Int) :
    List PhysCall :=
  if objectOpValid s sceneId then [PhysCall.applyTorque objectId tau] else []

/-- `Simulator::applyForce`. -/
def applyForce (s : SimState) (force : Vec3) (relPos : Vec3) (objectId : Int)
    (sceneId : Int) : List PhysCall :=
  if objectOpValid s sceneId then [PhysCall.applyForce objectId force relPos] else []

/-- `Simulator::setTransformation`. -/
def setTransformation (s : SimState) (transform : Mat4) (objectId : Int)
    (sceneId : Int) : List PhysCall :=
  if objectOpValid s sceneId then [PhysCall.setTransformation objectId transform] else []

/-- `Simulator::getTransformation`; `physMat` is the transform the physics
world reports when the call is forwarded. -/
def getTransformation (s : SimState) (objectId : Int) (sceneId : Int)
    (physMat : Mat4) : Mat4 × List PhysCall :=
  if objectOpValid s sceneId then (physMat, [PhysCall.getTransformation objectId])
  else (identityMat4, [])

/-- `Simulator::setTranslation`. -/
def setTranslation (s : SimState) (translation : Vec3) (objectId : Int)
    (sceneId : Int) : List PhysCall :=
  if objectOpValid s sceneId then [PhysCall.setTranslation objectId translation] else []

/-- `Simulator::getTranslation`. -/
def getTranslation (s : SimState) (objectId : Int) (sceneId : Int)
    (physVec : Vec3) : Vec3 × List PhysCall :=
  if objectOpValid s sceneId then (physVec, [PhysCall.getTranslation objectId])
  else (zeroVec3, [])

/-- `Simulator::setRotation`. -/
def setRotation (s : SimState) (rotation : Quat) (objectId : Int) (sceneId : Int) :
    List PhysCall :=
  if objectOpValid s sceneId then [PhysCall.setRotation objectId rotation] else []

/-- `Simulator::getRotation`. -/
def getRotation (s : SimState) (objectId : Int) (sceneId : Int)
    (physQuat : Quat) : Quat × List PhysCall :=
  if objectOpValid s sceneId then (physQuat, [PhysCall.getRotation objectId])
  else (identityQuat, [])

/-- `SensorType` enumeration of the sensor header. -/
inductive SensorType where
  | NONE
  | COLOR
  | DEPTH
  | NORMAL
  | SEMANTIC
  | PATH
  | GOAL
  | FORCE
  | TENSOR
  | TEXT
deriving DecidableEq

/-- `SensorSpec` with the defaults of the sensor header; `resolution` is in
H x W (rows, columns) order. -/
structure SensorSpec where
  uuid : String := "rgba_camera"
  sensorType : SensorType := SensorType.COLOR
  sensorSubtype : String := "pinhole"
  position : Vec3 := (0, 3/2, 0)
  orientation : Vec3 := (0, 0, 0)
  resolution : Int × Int := (84, 84)
  channels : Int := 4
  encoding : String := "rgba_uint8"
deriving DecidableEq

structure RenderTarget where
  framebufferSize : Int × Int
deriving DecidableEq

structure Sensor where
  spec : SensorSpec
  tgt : Option RenderTarget
deriving DecidableEq

/-- `Sensor::framebufferSize`: `{spec_->resolution[1], spec_->resolution[0]}`,
i.e. (width = columns, height = rows). -/
def Sensor.framebufferSize (sen : Sensor) : Int × Int :=
  (sen.spec.resolution.2, sen.spec.resolution.1)

/-- `Sensor::bindRenderTarget`: throws when the target's framebuffer size
differs from the sensor's, else takes ownership of the target. -/
def Sensor.bindRenderTarget (sen : Sensor) (t : RenderTarget) : Except String Sensor :=
  if t.framebufferSize ≠ sen.framebufferSize then
    Except.error "RenderTarget is not the correct size"
  else Except.ok { sen with tgt := some t }

/-- `calculateDepthUnprojection`:
`Vector2{(P[2][2] - 1.0f), P[3][2]} * 0.5f`. -/
def calculateDepthUnprojection (m : Mat4) : ℚ × ℚ :=
  ((m 2 2 - 1) * (1/2), m 3 2 * (1/2))

/-- `unprojectDepth`: per-pixel over the whole buffer, a raw value exactly
equal to the far-plane clear value 1 becomes 0, any other raw value `d`
becomes `b / (d + a)`. -/
def unprojectDepth (u : ℚ × ℚ) (depth : List ℚ) : List ℚ :=
  depth.map (fun d => if d = 1 then 0 else u.2 / (d + u.1))

/-- Concrete scene locator used by the concrete instances below. -/
def baseScene : SceneConfiguration :=
  ⟨"mp3d", "room.glb", [], (0, 1, 0), (0, 0, -1), 1⟩

/-- Concrete configuration used by the concrete instances below. -/
def baseConfig : SimulatorConfiguration :=
  ⟨baseScene, 0, "rgba_camera", 0, 640, 480, false, true, false, "physics.json"⟩

/-- A second configuration that compares different (other agent id). -/
def otherConfig : SimulatorConfiguration := { baseConfig with defaultAgentId := 7 }

/-- Environment with no files on disk, unknown classification, loads succeed. -/
def trivialEnv : Env := ⟨fun _ => false, fun _ => AssetType.UNKNOWN, true, true⟩

/-- Environment whose primary scene load fails. -/
def failEnv : Env := ⟨fun _ => false, fun _ => AssetType.UNKNOWN, false, true⟩

/-- Member state of a freshly constructed Simulator just before its first
reconfigure, with the given stored configuration. -/
def freshStateWith (c : SimulatorConfiguration) : SimState :=
  ⟨c, -1, -1, [], 0, false, false, false, false, 0⟩

/-- State after a successful first reconfigure of `baseConfig`. -/
def settledState : SimState := ⟨baseConfig, 0, -1, [0], 1, false, true, true, false, 1⟩

/-- State with a bound physics world and one allocated graph. -/
def physState : SimState := ⟨baseConfig, 0, 0, [0], 1, true, true, true, false, 1⟩

/-- Projection matrix of the concrete depth example: P[2][2] = 3, P[3][2] = 4. -/
def exampleProjection : Mat4 := fun c r =>
  if c = 2 ∧ r = 2 then 3 else if c = 3 ∧ r = 2 then 4 else 0

/-- Recognizer for Mp3d house-loader invocation events. -/
def isMp3dHouseEvent : Event → Bool
  | Event.loadMp3dHouse _ => true
  | _ => false

/-- Recognizer for Suncg house-loader invocation events. -/
def isSuncgHouseEvent : Event → Bool
  | Event.loadSuncgHouse _ => true
  | _ => false

/-- Whether the Mp3d house loader ran during a reconfigure call. -/
def mp3dLoaderRan (r : ReconfigureResult) : Bool := r.events.any isMp3dHouseEvent

/-- Whether the Suncg house loader ran during a reconfigure call. -/
def suncgLoaderRan (r : ReconfigureResult) : Bool := r.events.any isSuncgHouseEvent

/-- Scene locator for a SUNCG-classified scene. -/
def suncgScene : SceneConfiguration :=
  ⟨"suncg", "room.json", [], (0, 1, 0), (0, 0, -1), 1⟩

/-- Configuration naming the SUNCG scene, without a renderer. -/
def suncgConfigNoRenderer : SimulatorConfiguration :=
  ⟨suncgScene, 0, "rgba_camera", 0, 640, 480, false, false, false, ""⟩

/-- Configuration naming the SUNCG scene, with a renderer. -/
def suncgConfigRenderer : SimulatorConfiguration :=
  { suncgConfigNoRenderer with createRenderer := true }

/-- Environment in which the companion house file and semantic mesh both
exist, the scene classifies as SUNCG, the primary load succeeds and the
semantic-mesh load fails. -/
def suncgEnv : Env :=
  ⟨fun p => p == "room.house" || p == "room_semantic.ply",
   fun p => if p == "room.json" then AssetType.SUNCG_SCENE else AssetType.UNKNOWN,
   true, false⟩

/-- Scene locator for an instance-mesh scene. -/
def plyScene : SceneConfiguration :=
  ⟨"frl", "scan.ply", [], (0, 1, 0), (0, 0, -1), 1⟩

/-- Configuration naming the instance-mesh scene, without a renderer. -/
def plyConfigNoRenderer : SimulatorConfiguration :=
  ⟨plyScene, 0, "rgba_camera", 0, 640, 480, false, false, false, ""⟩

/-- Configuration naming the instance-mesh scene, with a renderer. -/
def plyConfigRenderer : SimulatorConfiguration :=
  { plyConfigNoRenderer with createRenderer := true }

/-- Environment classifying the instance-mesh scene, with no files on disk. -/
def plyEnv : Env :=
  ⟨fun _ => false,
   fun p => if p == "scan.ply" then AssetType.INSTANCE_MESH else AssetType.UNKNOWN,
   true, true⟩

/-- Configuration naming an Mp3d-style mesh scene, with a renderer. -/
def mp3dConfigRenderer : SimulatorConfiguration :=
  ⟨⟨"mp3d", "scan.glb", [], (0, 1, 0), (0, 0, -1), 1⟩,
   0, "rgba_camera", 0, 640, 480, false, true, false, ""⟩

/-- Environment in which the Mp3d scene's house file and semantic mesh both
exist, the classification is not an embedded-semantics tag, the primary load
succeeds and the semantic-mesh load fails. -/
def mp3dEnv : Env :=
  ⟨fun p => p == "scan.house" || p == "scan_semantic.ply",
   fun p => if p == "scan.glb" then AssetType.MP3D_MESH else AssetType.UNKNOWN,
   true, false⟩

/-- Same environment except the semantic-mesh load succeeds. -/
def mp3dEnvOk : Env := { mp3dEnv with semanticLoadOk := true }

/-- A sensor with the default specification and no bound render target. -/
def defaultSensor : Sensor := ⟨{}, none⟩

theorem simConfigEq_refl (c : SimulatorConfiguration) : simConfigEq c c = true := by
  simp [simConfigEq]

theorem reconfigure_eq_reset_of_eq (cfg : SimulatorConfiguration) (env : Env)
    (s : SimState) (h : simConfigEq cfg s.config = true) :
    reconfigure cfg env s = ⟨s, [Event.resetCalled], none⟩ := by
  simp [reconfigure, h, applyReset]

/-- Claim C1 counterexample: two configurations that differ in gpuDeviceId,
width and height still compare equal under the source's operator==, so
equality is not structural over those fields. -/
theorem simConfigEq_not_structural :
    simConfigEq baseConfig
      { baseConfig with gpuDeviceId := 1, width := 320, height := 240 } = true ∧
    baseConfig.width ≠
      ({ baseConfig with gpuDeviceId := 1, width := 320, height := 240 } :
        SimulatorConfiguration).width ∧
    baseConfig.height ≠
      ({ baseConfig with gpuDeviceId := 1, width := 320, height := 240 } :
        SimulatorConfiguration).height ∧
    baseConfig.gpuDeviceId ≠
      ({ baseConfig with gpuDeviceId := 1, width := 320, height := 240 } :
        SimulatorConfiguration).gpuDeviceId := by
  refine ⟨by decide, by decide, by decide, by decide⟩

/-- Claim C1 (amended): SimulatorConfiguration equality is structural over
the scene locator, the default agent and camera identifiers, the
compress-textures / create-renderer / enable-physics flags and the
physics-config file path, ignoring gpuDeviceId, width and height; and this
equality is the sole input to reconfigure's short-circuit decision. -/
theorem simConfigEq_fields_and_short_circuit (a b cfg : SimulatorConfiguration)
    (env : Env) (s : SimState) :
    (simConfigEq a b = true ↔
      (a.scene = b.scene ∧ a.defaultAgentId = b.defaultAgentId ∧
       a.defaultCameraUuid = b.defaultCameraUuid ∧
       a.compressTextures = b.compressTextures ∧
       a.createRenderer = b.createRenderer ∧ a.enablePhysics = b.enablePhysics ∧
       a.physicsConfigFile = b.physicsConfigFile)) ∧
    ((reconfigure cfg env s).events = [Event.resetCalled] ↔
      simConfigEq cfg s.config = true) := by
  constructor
  · simp [simConfigEq, and_assoc]
  · by_cases h : simConfigEq cfg s.config = true
    · simp [reconfigure, h, applyReset]
    · rw [Bool.not_eq_true] at h
      simp [reconfigure, h, fullReconfigure]

/-- Claim C2: when the incoming configuration compares equal to the stored
one, reconfigure performs only a reset and returns: the state (in particular
the active scene graph id and the list of ever-allocated graph ids) is
unchanged, no graph is allocated and no asset load happens. -/
theorem reconfigure_idempotent_short_circuit (cfg : SimulatorConfiguration)
    (env : Env) (s : SimState) (h : simConfigEq cfg s.config = true) :
    reconfigure cfg env s = ⟨s, [Event.resetCalled], none⟩ ∧
    (reconfigure cfg env s).state.activeSceneID = s.activeSceneID ∧
    (reconfigure cfg env s).state.sceneID = s.sceneID ∧
    (∀ g, Event.allocGraph g ∉ (reconfigure cfg env s).events) ∧
    (∀ p b, Event.loadScene p b ∉ (reconfigure cfg env s).events) ∧
    (∀ p, Event.loadSemanticMesh p ∉ (reconfigure cfg env s).events) := by
  simp [reconfigure, h, applyReset]

/-- Witness for claim C2 at a concrete configuration and state. -/
theorem reconfigure_idempotent_short_circuit_witness :
    reconfigure baseConfig trivialEnv settledState =
      ⟨settledState, [Event.resetCalled], none⟩ :=
  (reconfigure_idempotent_short_circuit baseConfig trivialEnv settledState
    (by decide)).1

/-- Claim C3: every object-addressing operation forwards to the physics
world iff a physics world is bound and 0 <= sceneID < count of graphs ever
allocated; otherwise it forwards nothing (no mutation) and returns its
benign sentinel: addObject the undefined id, getTransformation the identity
transform, getTranslation the zero vector, getRotation the identity
rotation, and the remaining operations are silent no-ops. -/
theorem object_addressing_contract (s : SimState)
    (objectLibIndex objectId sceneId physNewId : Int)
    (tau force relPos translation physVec : Vec3)
    (transform physMat : Mat4) (rotation physQuat : Quat) :
    (objectOpValid s sceneId = true ↔
      (s.physicsBound = true ∧ 0 ≤ sceneId ∧ sceneId < (s.sceneID.length : Int))) ∧
    (objectOpValid s sceneId = true →
      addObject s objectLibIndex sceneId physNewId =
        (physNewId, [PhysCall.addObject objectLibIndex]) ∧
      removeObject s objectId sceneId = [PhysCall.removeObject objectId] ∧
      applyForce s force relPos objectId sceneId =
        [PhysCall.applyForce objectId force relPos] ∧
      applyTorque s tau objectId sceneId = [PhysCall.applyTorque objectId tau] ∧
      setTransformation s transform objectId sceneId =
        [PhysCall.setTransformation objectId transform] ∧
      setTranslation s translation objectId sceneId =
        [PhysCall.setTranslation objectId translation] ∧
      setRotation s rotation objectId sceneId =
        [PhysCall.setRotation objectId rotation] ∧
      getTransformation s objectId sceneId physMat =
        (physMat, [PhysCall.getTransformation objectId]) ∧
      getTranslation s objectId sceneId physVec =
        (physVec, [PhysCall.getTranslation objectId]) ∧
      getRotation s objectId sceneId physQuat =
        (physQuat, [PhysCall.getRotation objectId])) ∧
    (objectOpValid s sceneId = false →
      addObject s objectLibIndex sceneId physNewId = (ID_UNDEFINED, []) ∧
      removeObject s objectId sceneId = [] ∧
      applyForce s force relPos objectId sceneId = [] ∧
      applyTorque s tau objectId sceneId = [] ∧
      setTransformation s transform objectId sceneId = [] ∧
      setTranslation s translation objectId sceneId = [] ∧
      setRotation s rotation objectId sceneId = [] ∧
      getTransformation s objectId sceneId physMat = (identityMat4, []) ∧
      getTranslation s objectId sceneId physVec = (zeroVec3, []) ∧
      getRotation s objectId sceneId physQuat = (identityQuat, [])) := by
  refine ⟨?_, fun h => ?_, fun h => ?_⟩
  · simp [objectOpValid, and_assoc]
  · simp [addObject, removeObject, applyForce, applyTorque, setTransformation,
      setTranslation, setRotation, getTransformation, getTranslation,
      getRotation, h]
  · simp [addObject, removeObject, applyForce, applyTorque, setTransformation,
      setTranslation, setRotation, getTransformation, getTranslation,
      getRotation, h]

/-- Witness for claim C3: a valid pair forwards, an out-of-range sceneID
yields the sentinels. -/
theorem object_addressing_contract_witness :
    addObject physState 2 0 7 = (7, [PhysCall.addObject 2]) ∧
    addObject physState 2 3 7 = (ID_UNDEFINED, []) ∧
    getTranslation physState 5 3 (1, 2, 3) = (zeroVec3, []) := by
  have hvalid := (object_addressing_contract physState 2 5 0 7
    zeroVec3 zeroVec3 zeroVec3 zeroVec3 (1, 2, 3)
    identityMat4 identityMat4 identityQuat identityQuat).2.1 (by decide)
  have hinvalid := (object_addressing_contract physState 2 5 3 7
    zeroVec3 zeroVec3 zeroVec3 zeroVec3 (1, 2, 3)
    identityMat4 identityMat4 identityQuat identityQuat).2.2 (by decide)
  exact ⟨hvalid.1, hinvalid.1, hinvalid.2.2.2.2.2.2.2.2.1⟩

/-- Claim C5: the unprojection coefficients are a = (P[2][2] - 1)/2 and
b = P[3][2]/2; each raw depth d becomes 0 when d is exactly 1 and
b / (d + a) otherwise, per-pixel over the whole buffer; with P[2][2] = 3 and
P[3][2] = 4 the coefficients are (1, 2) and raw depth 1/2 maps to
2 / (1/2 + 1) = 4/3. -/
theorem depth_unprojection_correct :
    (∀ m : Mat4, calculateDepthUnprojection m = ((m 2 2 - 1) / 2, m 3 2 / 2)) ∧
    (∀ (u : ℚ × ℚ) (depth : List ℚ),
      unprojectDepth u depth =
        depth.map (fun d => if d = 1 then 0 else u.2 / (d + u.1))) ∧
    (∀ u : ℚ × ℚ, unprojectDepth u [1] = [0]) ∧
    calculateDepthUnprojection exampleProjection = (1, 2) ∧
    unprojectDepth (1, 2) [1/2] = [2 / (1/2 + 1)] ∧
    (2 : ℚ) / (1/2 + 1) = 4/3 := by
  have h22 : exampleProjection 2 2 = 3 := rfl
  have h32 : exampleProjection 3 2 = 4 := rfl
  refine ⟨fun m => ?_, fun u depth => rfl, fun u => by simp [unprojectDepth],
    ?_, ?_, by norm_num⟩
  · simp only [calculateDepthUnprojection, Prod.mk.injEq]
    constructor <;> ring
  · simp only [calculateDepthUnprojection, h22, h32, Prod.mk.injEq]
    norm_num
  · norm_num [unprojectDepth]

/-- Claim C6: when the configuration has changed, a renderer is requested
and the resource loader reports failure for the primary scene asset,
reconfigure stops with the fatal load error right after the single load
attempt: no retry, no semantic steps, no reset. -/
theorem reconfigure_fail_fast (cfg : SimulatorConfiguration) (env : Env)
    (s : SimState) (h1 : simConfigEq cfg s.config = false)
    (h2 : cfg.createRenderer = true) (h3 : env.primaryLoadOk = false) :
    (reconfigure cfg env s).error = some ("Cannot load: " ++ sceneFilenameOf cfg) ∧
    (reconfigure cfg env s).events =
      [Event.allocGraph s.nextGraphId,
       Event.loadScene (sceneFilenameOf cfg) cfg.enablePhysics] := by
  refine ⟨?_, ?_⟩ <;>
    simp [reconfigure, h1, fullReconfigure, rendererAndLoadStep, h2, h3]

/-- Witness for claim C6 at a concrete failing load. -/
theorem reconfigure_fail_fast_witness :
    (reconfigure baseConfig failEnv (freshStateWith otherConfig)).error =
      some ("Cannot load: " ++ sceneFilenameOf baseConfig) :=
  (reconfigure_fail_fast baseConfig failEnv (freshStateWith otherConfig)
    (by decide) rfl rfl).1

/-- Claim C10: reconfigure stores the new configuration before the load, so
on the failing path the stored configuration already equals the failed one,
and a subsequent reconfigure with the same configuration (under any
environment) short-circuits to reset and never re-attempts a load. -/
theorem config_adopted_before_load (cfg : SimulatorConfiguration)
    (env env2 : Env) (s : SimState) (h1 : simConfigEq cfg s.config = false)
    (h2 : cfg.createRenderer = true) (h3 : env.primaryLoadOk = false) :
    (reconfigure cfg env s).state.config = cfg ∧
    (reconfigure cfg env s).error = some ("Cannot load: " ++ sceneFilenameOf cfg) ∧
    reconfigure cfg env2 (reconfigure cfg env s).state =
      ⟨(reconfigure cfg env s).state, [Event.resetCalled], none⟩ ∧
    (∀ p b, Event.loadScene p b ∉
      (reconfigure cfg env2 (reconfigure cfg env s).state).events) := by
  have hcfg : (reconfigure cfg env s).state.config = cfg := by
    simp [reconfigure, h1, fullReconfigure, rendererAndLoadStep, h2, h3]
  have hsc : simConfigEq cfg (reconfigure cfg env s).state.config = true := by
    rw [hcfg]; exact simConfigEq_refl cfg
  refine ⟨hcfg, ?_, ?_, ?_⟩
  · simp [reconfigure, h1, fullReconfigure, rendererAndLoadStep, h2, h3]
  · exact reconfigure_eq_reset_of_eq cfg env2 _ hsc
  · rw [reconfigure_eq_reset_of_eq cfg env2 _ hsc]
    simp

/-- Witness for claim C10 at a concrete failing load followed by a retry
with the same configuration. -/
theorem config_adopted_before_load_witness :
    (reconfigure baseConfig failEnv (freshStateWith otherConfig)).state.config =
      baseConfig ∧
    reconfigure baseConfig trivialEnv
        (reconfigure baseConfig failEnv (freshStateWith otherConfig)).state =
      ⟨(reconfigure baseConfig failEnv (freshStateWith otherConfig)).state,
       [Event.resetCalled], none⟩ := by
  have h := config_adopted_before_load baseConfig failEnv trivialEnv
    (freshStateWith otherConfig) (by decide) rfl rfl
  exact ⟨h.1, h.2.2.1⟩

/-- Claim C8: a sensor's framebuffer size swaps the H x W resolution spec
into (width = columns, height = rows); binding a render target of different
size fails eagerly at bind time leaving the sensor unchanged, and binding a
target of exactly matching size succeeds. -/
theorem sensor_bind_contract (sen : Sensor) (t : RenderTarget) :
    Sensor.framebufferSize sen = (sen.spec.resolution.2, sen.spec.resolution.1) ∧
    (t.framebufferSize ≠ Sensor.framebufferSize sen →
      Sensor.bindRenderTarget sen t =
        Except.error "RenderTarget is not the correct size") ∧
    (t.framebufferSize = Sensor.framebufferSize sen →
      Sensor.bindRenderTarget sen t = Except.ok { sen with tgt := some t }) := by
  refine ⟨rfl, fun h => ?_, fun h => ?_⟩ <;> simp [Sensor.bindRenderTarget, h]

/-- Witness for claim C8: the default 84x84 sensor rejects an 84x85 target
and accepts an 84x84 one. -/
theorem sensor_bind_contract_witness :
    Sensor.bindRenderTarget defaultSensor ⟨(84, 85)⟩ =
      Except.error "RenderTarget is not the correct size" ∧
    Sensor.bindRenderTarget defaultSensor ⟨(84, 84)⟩ =
      Except.ok { defaultSensor with tgt := some ⟨(84, 84)⟩ } :=
  ⟨(sensor_bind_contract defaultSensor ⟨(84, 85)⟩).2.1 (by decide),
   (sensor_bind_contract defaultSensor ⟨(84, 84)⟩).2.2 (by decide)⟩

/-- Claim C4 counterexample: in an environment where the companion house
file exists and the scene classifies as SUNCG, one reconfigure invokes both
the Mp3d house loader and the Suncg house loader — they are not mutually
exclusive. -/
theorem both_house_loaders_can_run :
    Event.loadMp3dHouse "room.house" ∈
      (reconfigure suncgConfigNoRenderer suncgEnv (freshStateWith baseConfig)).events ∧
    Event.loadSuncgHouse "room.json" ∈
      (reconfigure suncgConfigNoRenderer suncgEnv (freshStateWith baseConfig)).events := by
  decide

/-- Claim C4 (amended): in a non-short-circuited reconfigure that does not
abort on the primary load, the Mp3d house loader runs iff the companion
house file exists and the Suncg house loader runs iff the resolved
classification is the SUNCG tag; the two conditions are independent, so
both loaders run when both conditions hold. -/
theorem house_loader_selection (cfg : SimulatorConfiguration) (env : Env)
    (s : SimState) (h1 : simConfigEq cfg s.config = false)
    (h2 : cfg.createRenderer = true → env.primaryLoadOk = true) :
    mp3dLoaderRan (reconfigure cfg env s) = env.fileExists (houseFilenameOf cfg) ∧
    suncgLoaderRan (reconfigure cfg env s) =
      decide (env.assetTypeOf (sceneFilenameOf cfg) = AssetType.SUNCG_SCENE) := by
  cases hcr : cfg.createRenderer with
  | false =>
    by_cases hsu : env.assetTypeOf (sceneFilenameOf cfg) = AssetType.SUNCG_SCENE <;>
      cases hh : env.fileExists (houseFilenameOf cfg) <;>
        simp [reconfigure, h1, fullReconfigure, rendererAndLoadStep, hcr,
          houseAnnotationStep, mp3dLoaderRan, suncgLoaderRan, hh, hsu,
          isMp3dHouseEvent, isSuncgHouseEvent]
  | true =>
    have hp : env.primaryLoadOk = true := h2 hcr
    by_cases hsu : env.assetTypeOf (sceneFilenameOf cfg) = AssetType.SUNCG_SCENE <;>
      cases hh : env.fileExists (houseFilenameOf cfg) <;>
        cases hm : env.fileExists (semanticMeshFilenameOf cfg) <;>
          simp [reconfigure, h1, fullReconfigure, rendererAndLoadStep, hcr, hp,
            semanticMeshStep, houseAnnotationStep, mp3dLoaderRan, suncgLoaderRan,
            hh, hsu, hm, isMp3dHouseEvent, isSuncgHouseEvent]

/-- Witness for the amended claim C4 at the concrete SUNCG-with-house
environment: both loaders report as having run. -/
theorem house_loader_selection_witness :
    mp3dLoaderRan (reconfigure suncgConfigNoRenderer suncgEnv
      (freshStateWith baseConfig)) = true ∧
    suncgLoaderRan (reconfigure suncgConfigNoRenderer suncgEnv
      (freshStateWith baseConfig)) = true := by
  have h := house_loader_selection suncgConfigNoRenderer suncgEnv
    (freshStateWith baseConfig) (by decide) (fun hcr => by decide)
  exact ⟨by rw [h.1]; decide, by rw [h.2]; decide⟩

/-- Claim C7 counterexample: with an instance-mesh (embedded semantics)
scene but no renderer requested, reconfigure never updates the active
semantic scene graph id, so it differs from the active scene graph id. -/
theorem embedded_semantics_without_renderer_counterexample :
    plyEnv.assetTypeOf (sceneFilenameOf plyConfigNoRenderer) =
      AssetType.INSTANCE_MESH ∧
    (reconfigure plyConfigNoRenderer plyEnv
        (freshStateWith baseConfig)).state.activeSemanticSceneID ≠
      (reconfigure plyConfigNoRenderer plyEnv
        (freshStateWith baseConfig)).state.activeSceneID := by
  decide

/-- Claim C7 (amended): when a renderer is requested and the primary load
succeeds, an embedded-semantics classification makes the active semantic
scene graph id equal the active scene graph id after reconfigure, and the
embedded-semantics rule itself allocates no graph: with no companion house
file, exactly the one primary graph is allocated. -/
theorem embedded_semantics_share_graph (cfg : SimulatorConfiguration)
    (env : Env) (s : SimState) (h1 : simConfigEq cfg s.config = false)
    (h2 : cfg.createRenderer = true) (h3 : env.primaryLoadOk = true)
    (h4 : isEmbeddedType (env.assetTypeOf (sceneFilenameOf cfg)) = true) :
    (reconfigure cfg env s).state.activeSemanticSceneID =
      (reconfigure cfg env s).state.activeSceneID ∧
    (env.fileExists (houseFilenameOf cfg) = false →
      (reconfigure cfg env s).state.sceneID = s.sceneID ++ [s.nextGraphId]) := by
  constructor
  · cases hh : env.fileExists (houseFilenameOf cfg) <;>
      cases hm : env.fileExists (semanticMeshFilenameOf cfg) <;>
        simp [reconfigure, h1, fullReconfigure, rendererAndLoadStep, h2, h3, h4,
          semanticMeshStep, houseAnnotationStep, hh, hm]
  · intro hh
    simp [reconfigure, h1, fullReconfigure, rendererAndLoadStep, h2, h3, h4,
      semanticMeshStep, houseAnnotationStep, hh]

/-- Witness for the amended claim C7 at a concrete instance-mesh scene with
a renderer. -/
theorem embedded_semantics_share_graph_witness :
    (reconfigure plyConfigRenderer plyEnv
        (freshStateWith baseConfig)).state.activeSemanticSceneID =
      (reconfigure plyConfigRenderer plyEnv
        (freshStateWith baseConfig)).state.activeSceneID ∧
    (reconfigure plyConfigRenderer plyEnv
        (freshStateWith baseConfig)).state.sceneID =
      (freshStateWith baseConfig).sceneID ++
        [(freshStateWith baseConfig).nextGraphId] := by
  have h := embedded_semantics_share_graph plyConfigRenderer plyEnv
    (freshStateWith baseConfig) (by decide) (by decide) (by decide) (by decide)
  exact ⟨h.1, h.2 (by decide)⟩

theorem reconfigure_env_semantic_independent (cfg : SimulatorConfiguration)
    (f : String → Bool) (g : String → AssetType) (p b b2 : Bool) (s : SimState) :
    reconfigure cfg ⟨f, g, p, b⟩ s = reconfigure cfg ⟨f, g, p, b2⟩ s := rfl

/-- Claim C9 counterexample: with a SUNCG (embedded-semantics) scene whose
house file and semantic mesh exist and whose semantic-mesh load fails, the
semantic graph (id 1) is allocated and loaded and reconfigure succeeds, but
the final active semantic scene graph id is not that graph: the embedded
override replaces it with the primary id. -/
theorem semantic_graph_not_recorded_counterexample :
    (reconfigure suncgConfigRenderer suncgEnv (freshStateWith baseConfig)).error =
      none ∧
    Event.allocGraph 1 ∈
      (reconfigure suncgConfigRenderer suncgEnv (freshStateWith baseConfig)).events ∧
    Event.loadSemanticMesh "room_semantic.ply" ∈
      (reconfigure suncgConfigRenderer suncgEnv (freshStateWith baseConfig)).events ∧
    (reconfigure suncgConfigRenderer suncgEnv
        (freshStateWith baseConfig)).state.activeSemanticSceneID ≠ 1 := by
  decide

/-- Claim C9 (amended): the semantic-mesh load result is discarded — the
whole reconfigure outcome is independent of it, a failing semantic-mesh
load never aborts reconfigure, and the allocated semantic graph stays in
the graph list; it remains recorded as the active semantic scene graph id
exactly when the classification is not an embedded-semantics tag (otherwise
the subsequent override replaces it with the primary id). -/
theorem semantic_mesh_result_discarded (cfg : SimulatorConfiguration)
    (env env2 : Env) (s : SimState)
    (hfe : env.fileExists = env2.fileExists)
    (hat : env.assetTypeOf = env2.assetTypeOf)
    (hpl : env.primaryLoadOk = env2.primaryLoadOk)
    (h1 : simConfigEq cfg s.config = false) (h2 : cfg.createRenderer = true)
    (h3 : env.primaryLoadOk = true)
    (hh : env.fileExists (houseFilenameOf cfg) = true)
    (hm : env.fileExists (semanticMeshFilenameOf cfg) = true) :
    reconfigure cfg env s = reconfigure cfg env2 s ∧
    (reconfigure cfg env s).error = none ∧
    Event.loadSemanticMesh (semanticMeshFilenameOf cfg) ∈
      (reconfigure cfg env s).events ∧
    (s.nextGraphId + 1) ∈ (reconfigure cfg env s).state.sceneID ∧
    (isEmbeddedType (env.assetTypeOf (sceneFilenameOf cfg)) = false →
      (reconfigure cfg env s).state.activeSemanticSceneID = s.nextGraphId + 1) := by
  refine ⟨?_, ?_, ?_, ?_, ?_⟩
  · have hA : reconfigure cfg env s =
        reconfigure cfg
          ⟨env.fileExists, env.assetTypeOf, env.primaryLoadOk,
           env2.semanticLoadOk⟩ s :=
      reconfigure_env_semantic_independent cfg env.fileExists env.assetTypeOf
        env.primaryLoadOk env.semanticLoadOk env2.semanticLoadOk s
    have hB : (⟨env.fileExists, env.assetTypeOf, env.primaryLoadOk,
        env2.semanticLoadOk⟩ : Env) = env2 := by
      rw [hfe, hat, hpl]
    rw [hB] at hA
    exact hA
  · simp [reconfigure, h1, fullReconfigure, rendererAndLoadStep, h2, h3]
  · cases hemb : isEmbeddedType (env.assetTypeOf (sceneFilenameOf cfg)) <;>
      simp [reconfigure, h1, fullReconfigure, rendererAndLoadStep, h2, h3,
        semanticMeshStep, houseAnnotationStep, hh, hm, hemb]
  · cases hemb : isEmbeddedType (env.assetTypeOf (sceneFilenameOf cfg)) <;>
      simp [reconfigure, h1, fullReconfigure, rendererAndLoadStep, h2, h3,
        semanticMeshStep, houseAnnotationStep, hh, hm, hemb]
  · intro hemb
    simp [reconfigure, h1, fullReconfigure, rendererAndLoadStep, h2, h3,
      semanticMeshStep, houseAnnotationStep, hh, hm, hemb]

/-- Witness for the amended claim C9 at a concrete Mp3d scene whose
semantic-mesh load fails: the outcome equals the one with a succeeding
semantic-mesh load, reconfigure succeeds, and the semantic graph id 1 is
recorded as active semantic scene graph id. -/
theorem semantic_mesh_result_discarded_witness :
    reconfigure mp3dConfigRenderer mp3dEnv (freshStateWith baseConfig) =
      reconfigure mp3dConfigRenderer mp3dEnvOk (freshStateWith baseConfig) ∧
    (reconfigure mp3dConfigRenderer mp3dEnv (freshStateWith baseConfig)).error =
      none ∧
    (reconfigure mp3dConfigRenderer mp3dEnv
        (freshStateWith baseConfig)).state.activeSemanticSceneID =
      (freshStateWith baseConfig).nextGraphId + 1 := by
  have h := semantic_mesh_result_discarded mp3dConfigRenderer mp3dEnv mp3dEnvOk
    (freshStateWith baseConfig) rfl rfl rfl (by decide) rfl rfl (by decide)
    (by decide)
  exact ⟨h.1, h.2.1, h.2.2.2.2 (by decide)⟩
